import Mathlib

/-!
Verification of the naga GLSL backend (`src/third_party/rust/naga/src/back/glsl/mod.rs`).

The definitions below are a shallow embedding of the writer code: each Rust
function relevant to the claims is translated into a Lean function over
explicit data. Rendered sub-expressions (the output of recursive `write_expr`
calls) are passed as plain strings, mirroring the writer's sequential
`write!` calls; machine integers appearing in offsets are modelled as `Nat`
(no overflow is relevant at the sizes involved); fallible code returns
`Except GlslError`.
-/

/-- `crate::ScalarKind` from the naga IR (an input of the backend). -/
inductive ScalarKind where
  | Sint
  | Uint
  | Float
  | Bool
  | AbstractInt
  | AbstractFloat
deriving DecidableEq, Repr

/-- `crate::Scalar`: a scalar kind together with its byte width. -/
structure Scalar where
  kind : ScalarKind
  width : Nat
deriving DecidableEq, Repr

/-- `enum Error` from mod.rs (lines 532-570). Payload-free variants carry
their data where the claims need it; `FmtError` and the features payload are
irrelevant to the claims and kept as bare constructors. -/
inductive GlslError where
  | FmtError
  | MissingFeatures
  | MultiplePushConstants
  | VersionNotSupported
  | EntryPointNotFound
  | UnsupportedExternal (name : String)
  | UnsupportedScalar (scalar : Scalar)
  | ImageMultipleSamplers
  | Custom (msg : String)
  | Override
  | FirstSamplingNotSupported
  | ResolveArraySizeError
deriving DecidableEq, Repr

/-- `struct ScalarString` from mod.rs: the prefix used to compose other
types and the full scalar type name (field `prefix` renamed to `pre`). -/
structure ScalarString where
  pre : String
  full : String
deriving DecidableEq, Repr

/-- `glsl_scalar` (mod.rs lines 5157-5188): helper returning scalar related
strings, failing with `UnsupportedScalar` exactly where the source does. -/
def glsl_scalar (scalar : Scalar) : Except GlslError ScalarString :=
  match scalar.kind with
  | ScalarKind.Sint => Except.ok { pre := "i", full := "int" }
  | ScalarKind.Uint => Except.ok { pre := "u", full := "uint" }
  | ScalarKind.Float =>
      match scalar.width with
      | 4 => Except.ok { pre := "", full := "float" }
      | 8 => Except.ok { pre := "d", full := "double" }
      | _ => Except.error (GlslError.UnsupportedScalar scalar)
  | ScalarKind.Bool => Except.ok { pre := "b", full := "bool" }
  | ScalarKind.AbstractInt => Except.error (GlslError.UnsupportedScalar scalar)
  | ScalarKind.AbstractFloat => Except.error (GlslError.UnsupportedScalar scalar)

/-- `crate::Literal` from the naga IR. Float payloads are carried as their
already-formatted debug text (the writer only interpolates them), integer
payloads as `Int`/`Nat`. -/
inductive Literal where
  | F64 (txt : String)
  | F32 (txt : String)
  | F16
  | U32 (value : Nat)
  | I32 (value : Int)
  | BoolLit (value : Bool)
  | I64 (value : Int)
  | U64 (value : Nat)
  | AbstractInt
  | AbstractFloat
deriving DecidableEq, Repr

/-- `Writer::write_possibly_const_expr`, `Expression::Literal` arm
(mod.rs lines 2866-2894): the text appended to the output, or the error the
writer returns. -/
def write_literal (literal : Literal) : Except GlslError String :=
  match literal with
  | Literal.F64 txt => Except.ok (txt ++ "LF")
  | Literal.F32 txt => Except.ok txt
  | Literal.F16 => Except.error (GlslError.Custom "GLSL has no 16-bit float type")
  | Literal.U32 value => Except.ok (toString value ++ "u")
  | Literal.I32 value => Except.ok (toString value)
  | Literal.BoolLit value => Except.ok (toString value)
  | Literal.I64 _ => Except.error (GlslError.Custom "GLSL has no 64-bit integer type")
  | Literal.U64 _ => Except.error (GlslError.Custom "GLSL has no 64-bit integer type")
  | Literal.AbstractInt =>
      Except.error
        (GlslError.Custom "Abstract types should not appear in IR presented to backends")
  | Literal.AbstractFloat =>
      Except.error
        (GlslError.Custom "Abstract types should not appear in IR presented to backends")

/-- `crate::StorageFormat` from the naga IR: the 41 storage texture formats
matched by `glsl_storage_format`. -/
inductive StorageFormat where
  | R8Unorm | R8Snorm | R8Uint | R8Sint
  | R16Uint | R16Sint | R16Float
  | Rg8Unorm | Rg8Snorm | Rg8Uint | Rg8Sint
  | R32Uint | R32Sint | R32Float
  | Rg16Uint | Rg16Sint | Rg16Float
  | Rgba8Unorm | Rgba8Snorm | Rgba8Uint | Rgba8Sint
  | Rgb10a2Uint | Rgb10a2Unorm | Rg11b10Ufloat
  | R64Uint
  | Rg32Uint | Rg32Sint | Rg32Float
  | Rgba16Uint | Rgba16Sint | Rgba16Float
  | Rgba32Uint | Rgba32Sint | Rgba32Float
  | R16Unorm | R16Snorm | Rg16Unorm | Rg16Snorm | Rgba16Unorm | Rgba16Snorm
  | Bgra8Unorm
deriving DecidableEq, Repr

/-- `glsl_storage_format` (mod.rs lines 5299-5350): the glsl storage format
string of a `StorageFormat`, with `Bgra8Unorm` rejected. -/
def glsl_storage_format (format : StorageFormat) : Except GlslError String :=
  match format with
  | StorageFormat.R8Unorm => Except.ok "r8"
  | StorageFormat.R8Snorm => Except.ok "r8_snorm"
  | StorageFormat.R8Uint => Except.ok "r8ui"
  | StorageFormat.R8Sint => Except.ok "r8i"
  | StorageFormat.R16Uint => Except.ok "r16ui"
  | StorageFormat.R16Sint => Except.ok "r16i"
  | StorageFormat.R16Float => Except.ok "r16f"
  | StorageFormat.Rg8Unorm => Except.ok "rg8"
  | StorageFormat.Rg8Snorm => Except.ok "rg8_snorm"
  | StorageFormat.Rg8Uint => Except.ok "rg8ui"
  | StorageFormat.Rg8Sint => Except.ok "rg8i"
  | StorageFormat.R32Uint => Except.ok "r32ui"
  | StorageFormat.R32Sint => Except.ok "r32i"
  | StorageFormat.R32Float => Except.ok "r32f"
  | StorageFormat.Rg16Uint => Except.ok "rg16ui"
  | StorageFormat.Rg16Sint => Except.ok "rg16i"
  | StorageFormat.Rg16Float => Except.ok "rg16f"
  | StorageFormat.Rgba8Unorm => Except.ok "rgba8"
  | StorageFormat.Rgba8Snorm => Except.ok "rgba8_snorm"
  | StorageFormat.Rgba8Uint => Except.ok "rgba8ui"
  | StorageFormat.Rgba8Sint => Except.ok "rgba8i"
  | StorageFormat.Rgb10a2Uint => Except.ok "rgb10_a2ui"
  | StorageFormat.Rgb10a2Unorm => Except.ok "rgb10_a2"
  | StorageFormat.Rg11b10Ufloat => Except.ok "r11f_g11f_b10f"
  | StorageFormat.R64Uint => Except.ok "r64ui"
  | StorageFormat.Rg32Uint => Except.ok "rg32ui"
  | StorageFormat.Rg32Sint => Except.ok "rg32i"
  | StorageFormat.Rg32Float => Except.ok "rg32f"
  | StorageFormat.Rgba16Uint => Except.ok "rgba16ui"
  | StorageFormat.Rgba16Sint => Except.ok "rgba16i"
  | StorageFormat.Rgba16Float => Except.ok "rgba16f"
  | StorageFormat.Rgba32Uint => Except.ok "rgba32ui"
  | StorageFormat.Rgba32Sint => Except.ok "rgba32i"
  | StorageFormat.Rgba32Float => Except.ok "rgba32f"
  | StorageFormat.R16Unorm => Except.ok "r16"
  | StorageFormat.R16Snorm => Except.ok "r16_snorm"
  | StorageFormat.Rg16Unorm => Except.ok "rg16"
  | StorageFormat.Rg16Snorm => Except.ok "rg16_snorm"
  | StorageFormat.Rgba16Unorm => Except.ok "rgba16"
  | StorageFormat.Rgba16Snorm => Except.ok "rgba16_snorm"
  | StorageFormat.Bgra8Unorm =>
      Except.error (GlslError.Custom "Support format BGRA8 is not implemented")

/-- All 41 `StorageFormat` variants, in declaration order. -/
def allStorageFormats : List StorageFormat :=
  [StorageFormat.R8Unorm, StorageFormat.R8Snorm, StorageFormat.R8Uint, StorageFormat.R8Sint,
   StorageFormat.R16Uint, StorageFormat.R16Sint, StorageFormat.R16Float,
   StorageFormat.Rg8Unorm, StorageFormat.Rg8Snorm, StorageFormat.Rg8Uint, StorageFormat.Rg8Sint,
   StorageFormat.R32Uint, StorageFormat.R32Sint, StorageFormat.R32Float,
   StorageFormat.Rg16Uint, StorageFormat.Rg16Sint, StorageFormat.Rg16Float,
   StorageFormat.Rgba8Unorm, StorageFormat.Rgba8Snorm, StorageFormat.Rgba8Uint,
   StorageFormat.Rgba8Sint, StorageFormat.Rgb10a2Uint, StorageFormat.Rgb10a2Unorm,
   StorageFormat.Rg11b10Ufloat, StorageFormat.R64Uint,
   StorageFormat.Rg32Uint, StorageFormat.Rg32Sint, StorageFormat.Rg32Float,
   StorageFormat.Rgba16Uint, StorageFormat.Rgba16Sint, StorageFormat.Rgba16Float,
   StorageFormat.Rgba32Uint, StorageFormat.Rgba32Sint, StorageFormat.Rgba32Float,
   StorageFormat.R16Unorm, StorageFormat.R16Snorm, StorageFormat.Rg16Unorm,
   StorageFormat.Rg16Snorm, StorageFormat.Rgba16Unorm, StorageFormat.Rgba16Snorm,
   StorageFormat.Bgra8Unorm]

instance exceptDecEq {ε α : Type} [DecidableEq ε] [DecidableEq α] :
    DecidableEq (Except ε α) := fun x y =>
  match x, y with
  | Except.ok a, Except.ok b =>
      if h : a = b then Decidable.isTrue (by rw [h]) else Decidable.isFalse (by simp [h])
  | Except.ok _, Except.error _ => Decidable.isFalse (by simp)
  | Except.error _, Except.ok _ => Decidable.isFalse (by simp)
  | Except.error a, Except.error b =>
      if h : a = b then Decidable.isTrue (by rw [h]) else Decidable.isFalse (by simp [h])

/-- Inverse lookup recovering a `StorageFormat` from its glsl string: the
first format in declaration order whose mapping succeeds with that string. -/
def glsl_storage_format_inv (s : String) : Option StorageFormat :=
  allStorageFormats.find? (fun f => decide (glsl_storage_format f = Except.ok s))

/-- `crate::VectorSize` from the naga IR. -/
inductive VectorSize where
  | Bi
  | Tri
  | Quad
deriving DecidableEq, Repr

/-- `VectorSize as usize`: number of components. -/
def VectorSize.toNat : VectorSize → Nat
  | VectorSize.Bi => 2
  | VectorSize.Tri => 3
  | VectorSize.Quad => 4

/-- `crate::BinaryOperator` from the naga IR. -/
inductive BinaryOperator where
  | Add | Subtract | Multiply | Divide | Modulo
  | Equal | NotEqual | Less | LessEqual | Greater | GreaterEqual
  | And | ExclusiveOr | InclusiveOr
  | LogicalAnd | LogicalOr
  | ShiftLeft | ShiftRight
deriving DecidableEq, Repr

/-- Modelled from the spec: `back::binary_operation_str` (naga shared backend
code, not under src/), the plain GLSL spelling of a binary operator used by
the `BinaryOperation::Other` branch. -/
def binary_operation_str : BinaryOperator → String
  | BinaryOperator.Add => "+"
  | BinaryOperator.Subtract => "-"
  | BinaryOperator.Multiply => "*"
  | BinaryOperator.Divide => "/"
  | BinaryOperator.Modulo => "%"
  | BinaryOperator.Equal => "=="
  | BinaryOperator.NotEqual => "!="
  | BinaryOperator.Less => "<"
  | BinaryOperator.LessEqual => "<="
  | BinaryOperator.Greater => ">"
  | BinaryOperator.GreaterEqual => ">="
  | BinaryOperator.And => "&"
  | BinaryOperator.ExclusiveOr => "^"
  | BinaryOperator.InclusiveOr => "|"
  | BinaryOperator.LogicalAnd => "&&"
  | BinaryOperator.LogicalOr => "||"
  | BinaryOperator.ShiftLeft => "<<"
  | BinaryOperator.ShiftRight => ">>"

/-- `enum BinaryOperation` from mod.rs (lines 573-582): binary operations
with a different logic on the GLSL side. -/
inductive BinaryOperation where
  | VectorCompare
  | VectorComponentWise
  | Modulo
  | Other
deriving DecidableEq, Repr

/-- The fragment of `TypeInner` (as produced by `ctx.resolve_type`) that the
binary-expression classification inspects: vectors and scalars are kept in
full, every other shape is represented by what its `scalar_kind()` returns. -/
inductive Ti where
  | ScalarTy (s : Scalar)
  | Vector (size : VectorSize) (s : Scalar)
  | OtherType (sk : Option ScalarKind)
deriving DecidableEq, Repr

/-- `TypeInner::scalar_kind` restricted to the shapes of `Ti`. -/
def Ti.scalar_kind : Ti → Option ScalarKind
  | Ti.ScalarTy s => some s.kind
  | Ti.Vector _ s => some s.kind
  | Ti.OtherType sk => sk

/-- The classification of a binary expression (mod.rs lines 3381-3418):
which `BinaryOperation` branch is taken, and the possibly rewritten
operator (`&`/`|` on booleans become `&&`/`||`). -/
def classify_binary (op : BinaryOperator) (left_inner right_inner : Ti) :
    BinaryOperation × BinaryOperator :=
  match left_inner, right_inner with
  | Ti.Vector _ scalar, Ti.Vector _ _ =>
      match op with
      | BinaryOperator.Less => (BinaryOperation.VectorCompare, op)
      | BinaryOperator.LessEqual => (BinaryOperation.VectorCompare, op)
      | BinaryOperator.Greater => (BinaryOperation.VectorCompare, op)
      | BinaryOperator.GreaterEqual => (BinaryOperation.VectorCompare, op)
      | BinaryOperator.Equal => (BinaryOperation.VectorCompare, op)
      | BinaryOperator.NotEqual => (BinaryOperation.VectorCompare, op)
      | BinaryOperator.Modulo =>
          if scalar.kind = ScalarKind.Float then (BinaryOperation.Modulo, op)
          else (BinaryOperation.Other, op)
      | BinaryOperator.And =>
          if scalar.kind = ScalarKind.Bool then
            (BinaryOperation.VectorComponentWise, BinaryOperator.LogicalAnd)
          else (BinaryOperation.Other, op)
      | BinaryOperator.InclusiveOr =>
          if scalar.kind = ScalarKind.Bool then
            (BinaryOperation.VectorComponentWise, BinaryOperator.LogicalOr)
          else (BinaryOperation.Other, op)
      | _ => (BinaryOperation.Other, op)
  | _, _ =>
      match left_inner.scalar_kind, right_inner.scalar_kind with
      | some ScalarKind.Float, _ =>
          match op with
          | BinaryOperator.Modulo => (BinaryOperation.Modulo, op)
          | _ => (BinaryOperation.Other, op)
      | _, some ScalarKind.Float =>
          match op with
          | BinaryOperator.Modulo => (BinaryOperation.Modulo, op)
          | _ => (BinaryOperation.Other, op)
      | some ScalarKind.Bool, some ScalarKind.Bool =>
          match op with
          | BinaryOperator.InclusiveOr => (BinaryOperation.Other, BinaryOperator.LogicalOr)
          | BinaryOperator.And => (BinaryOperation.Other, BinaryOperator.LogicalAnd)
          | _ => (BinaryOperation.Other, op)
      | _, _ => (BinaryOperation.Other, op)

/-- `back::COMPONENTS`: swizzle letters. -/
def COMPONENTS : List String := ["x", "y", "z", "w"]

/-- `Writer::write_value_type` restricted to the `Ti` shapes the binary
writer can pass to it (vectors and scalars). -/
def write_value_type (ty : Ti) : Except GlslError String :=
  match ty with
  | Ti.ScalarTy s => do
      let ss ← glsl_scalar s
      Except.ok ss.full
  | Ti.Vector size s => do
      let ss ← glsl_scalar s
      Except.ok (ss.pre ++ "vec" ++ toString size.toNat)
  | Ti.OtherType _ => Except.error (GlslError.Custom "unsupported value type shape")

/-- The function-style spelling of a vector comparison
(mod.rs lines 3422-3430). -/
def vector_compare_str (op : BinaryOperator) : String :=
  match op with
  | BinaryOperator.Less => "lessThan("
  | BinaryOperator.LessEqual => "lessThanEqual("
  | BinaryOperator.Greater => "greaterThan("
  | BinaryOperator.GreaterEqual => "greaterThanEqual("
  | BinaryOperator.Equal => "equal("
  | BinaryOperator.NotEqual => "notEqual("
  | _ => "unreachable"

/-- `Expression::Binary` arm of `Writer::write_expr`
(mod.rs lines 3369-3499). `ls` and `rs` are the renderings of the left and
right operands produced by the recursive `write_expr` calls. -/
def write_binary (op : BinaryOperator) (left_inner right_inner : Ti)
    (ls rs : String) : Except GlslError String :=
  let (function, op') := classify_binary op left_inner right_inner
  match function with
  | BinaryOperation.VectorCompare =>
      Except.ok (vector_compare_str op' ++ ls ++ ", " ++ rs ++ ")")
  | BinaryOperation.VectorComponentWise => do
      let tyStr ← write_value_type left_inner
      let size :=
        match left_inner with
        | Ti.Vector size _ => size.toNat
        | _ => 0
      let pieces := (List.range size).map (fun i =>
        ls ++ "." ++ COMPONENTS.getD i "" ++ " " ++ binary_operation_str op' ++ " "
          ++ rs ++ "." ++ COMPONENTS.getD i "")
      Except.ok (tyStr ++ "(" ++ String.intercalate ", " pieces ++ ")")
  | BinaryOperation.Modulo =>
      Except.ok ("(" ++ ls ++ " - " ++ rs ++ " * " ++ "trunc(" ++ ls ++ " / " ++ rs
        ++ ")" ++ ")")
  | BinaryOperation.Other =>
      Except.ok ("(" ++ ls ++ " " ++ binary_operation_str op' ++ " " ++ rs ++ ")")

/-- `Mf::Clamp` arm of the `Expression::Math` writer (mod.rs lines
3592-3613) together with the generic function-call tail that the `Float`
case falls through to (mod.rs lines 4181-4230; no casts apply to `clamp`).
`scalar_kind` is `resolve_type(arg).scalar_kind().unwrap()`, and `x`, `lo`,
`hi` are the renderings of the three arguments. -/
def write_clamp (scalar_kind : ScalarKind) (x lo hi : String) : String :=
  match scalar_kind with
  | ScalarKind.Float => "clamp(" ++ x ++ ", " ++ lo ++ ", " ++ hi ++ ")"
  | _ => "min(max(" ++ x ++ ", " ++ lo ++ "), " ++ hi ++ ")"

/-- `crate::AtomicFunction` from the naga IR. The `compare` operand of
`Exchange` is carried as its rendered text (the writer renders it with
`write_expr`). -/
inductive AtomicFunction where
  | Add
  | Subtract
  | And
  | InclusiveOr
  | ExclusiveOr
  | Min
  | Max
  | Exchange (compare : Option String)
deriving DecidableEq, Repr

/-- `AtomicFunction::to_glsl` (mod.rs lines 118-131). -/
def AtomicFunction.to_glsl : AtomicFunction → String
  | AtomicFunction.Add => "Add"
  | AtomicFunction.Subtract => "Add"
  | AtomicFunction.And => "And"
  | AtomicFunction.InclusiveOr => "Or"
  | AtomicFunction.ExclusiveOr => "Xor"
  | AtomicFunction.Min => "Min"
  | AtomicFunction.Max => "Max"
  | AtomicFunction.Exchange none => "Exchange"
  | AtomicFunction.Exchange (some _) => ""

/-- `Statement::Atomic` arm of `Writer::write_stmt` (mod.rs lines
2607-2658), with indentation prefixes omitted. `p` and `v` are the rendered
pointer and value operands; `result` carries the rendered result type and
the baked result name when the statement has a result. -/
def write_atomic_stmt (fun_ : AtomicFunction) (p v : String)
    (result : Option (String × String)) : String :=
  match fun_ with
  | AtomicFunction.Exchange (some compare) =>
      let resName := (result.getD ("", "")).2
      let resTy := (result.getD ("", "")).1
      resTy ++ " " ++ resName ++ ";" ++ " " ++ resName ++ ".old_value = atomicCompSwap("
        ++ p ++ ", " ++ compare ++ ", " ++ v ++ ");\n"
        ++ resName ++ ".exchanged = (" ++ resName ++ ".old_value == " ++ compare ++ ");\n"
  | _ =>
      (match result with
       | some (resTy, resName) => resTy ++ " " ++ resName ++ " = "
       | none => "")
        ++ "atomic" ++ fun_.to_glsl ++ "(" ++ p ++ ", "
        ++ (match fun_ with
            | AtomicFunction.Subtract => "-"
            | _ => "")
        ++ v ++ ");\n"

/-- `crate::ShaderStage` from the naga IR. -/
inductive ShaderStage where
  | Vertex
  | Fragment
  | Compute
  | Task
  | Mesh
deriving DecidableEq, Repr

/-- The builtins distinguished by the return-epilogue code: only
`BuiltIn::PointSize` is inspected, every other builtin is collapsed. -/
inductive BuiltInKind where
  | Position
  | PointSize
  | OtherBuiltIn
deriving DecidableEq, Repr

/-- `crate::Binding` from the naga IR, restricted to what the epilogue
inspects. -/
inductive Binding where
  | BuiltIn (b : BuiltInKind)
  | Location (location : Nat)
deriving DecidableEq, Repr

/-- The `has_point_size` accumulation of the entry-point `Return` arm
(mod.rs lines 2429, 2452-2458): true iff some member of the result struct
has a `PointSize` builtin binding. For a non-struct result the flag is
never set. -/
def has_point_size (member_bindings : List (Option Binding)) : Bool :=
  member_bindings.any (fun b => decide (b = some (Binding.BuiltIn BuiltInKind.PointSize)))

/-- The tail of the entry-point `Return` arm (mod.rs lines 2503-2528): the
text emitted after the result members have been stored to the `out`
varyings, with indentation prefixes omitted. `hps` is the `has_point_size`
flag accumulated while storing the members (false when the result is not a
struct or there is no result). -/
def write_ep_return_epilogue (stage : ShaderStage)
    (adjust_coordinate_space force_point_size : Bool) (hps : Bool) : String :=
  let is_vertex_stage := decide (stage = ShaderStage.Vertex)
  (if is_vertex_stage && adjust_coordinate_space then
      "gl_Position.yz = vec2(-gl_Position.y, gl_Position.z * 2.0 - gl_Position.w);\n"
    else "")
    ++ (if is_vertex_stage && force_point_size && !hps then "gl_PointSize = 1.0;\n" else "")
    ++ "return;\n"

/-- `enum Version` from mod.rs (lines 151-156). -/
inductive Version where
  | Desktop (v : Nat)
  | Embedded (version : Nat) (is_webgl : Bool)
deriving DecidableEq, Repr

/-- `Version::is_es` (mod.rs lines 168-173). -/
def Version.is_es : Version → Bool
  | Version.Desktop _ => false
  | Version.Embedded _ _ => true

/-- `proc::BoundsCheckPolicy` (an input of the backend). -/
inductive BoundsCheckPolicy where
  | Restrict
  | ReadZeroSkipWrite
  | Unchecked
deriving DecidableEq, Repr

/-- `crate::ImageClass` from the naga IR, with payloads irrelevant to the
image-load policy selection dropped. -/
inductive ImageClass where
  | Sampled
  | Storage
  | Depth
deriving DecidableEq, Repr

/-- The function-name and policy selection of `Writer::write_image_load`
(mod.rs lines 4596-4621). -/
def image_load_fun_and_policy (class_ : ImageClass) (version : Version)
    (image_load_policy : BoundsCheckPolicy) :
    Except GlslError (String × BoundsCheckPolicy) :=
  match class_ with
  | ImageClass.Sampled => Except.ok ("texelFetch", image_load_policy)
  | ImageClass.Storage =>
      let policy :=
        if version.is_es then image_load_policy else BoundsCheckPolicy.Unchecked
      Except.ok ("imageLoad", policy)
  | ImageClass.Depth =>
      Except.error
        (GlslError.Custom "WGSL `textureLoad` from depth textures is not supported in GLSL")

/-- The shape of the text `Writer::write_image_load` emits: the load
function used, whether the `ReadZeroSkipWrite` ternary guard is present
(mod.rs line 4628), and whether the `Restrict` coordinate clamp is present
(mod.rs line 4722). -/
structure ImageLoadShape where
  fun_name : String
  has_rzsw_guard : Bool
  has_restrict_clamp : Bool
deriving DecidableEq, Repr

/-- The observable shape of `Writer::write_image_load` (mod.rs lines
4557-4800): the selected function name together with which bounds-check
overlay the selected policy produces. -/
def write_image_load_shape (class_ : ImageClass) (version : Version)
    (image_load_policy : BoundsCheckPolicy) : Except GlslError ImageLoadShape := do
  let (fun_name, policy) ← image_load_fun_and_policy class_ version image_load_policy
  Except.ok
    { fun_name := fun_name
      has_rzsw_guard := decide (policy = BoundsCheckPolicy.ReadZeroSkipWrite)
      has_restrict_clamp := decide (policy = BoundsCheckPolicy.Restrict) }

/-- `crate::AddressSpace` from the naga IR. -/
inductive AddressSpace where
  | Function
  | Private
  | WorkGroup
  | Uniform
  | Storage
  | Handle
  | PushConstant
deriving DecidableEq, Repr

/-- A global variable as the reachability-filtered passes see it: its
address space and whether `info[handle]` is non-empty (the global is
reachable from the selected entry point). -/
structure GlobalVar where
  space : AddressSpace
  reachable : Bool
deriving DecidableEq, Repr

/-- Modelled from the spec: the push-constant uniqueness check of the
features-collection pass (`mod features`, declared at mod.rs line 73 but
not present under src/). Per the spec, translation fails with
`MultiplePushConstants` when more than one push-constant global is
reachable from the selected entry point. -/
def check_multiple_push_constants (globals : List GlobalVar) : Except GlslError Unit :=
  if 2 ≤ (globals.filter (fun g =>
      g.reachable && decide (g.space = AddressSpace.PushConstant))).length then
    Except.error GlslError.MultiplePushConstants
  else
    Except.ok ()

/-- `back::Level` rendering (shared backend code, not under src/): each
indentation level is four spaces. The claims do not depend on the indent
text. -/
def levelStr (n : Nat) : String :=
  String.join (List.replicate n "    ")

/-- `crate::SwitchValue` from the naga IR. -/
inductive SwitchValue where
  | I32 (v : Int)
  | U32 (v : Nat)
  | Default
deriving DecidableEq, Repr

/-- A statement of a switch-case body, as the recursive `write_stmt` call
renders it: `render n` is the text `write_stmt` produces for it at
indentation level `n`, and `is_terminator` is `Statement::is_terminator()`
(true for `Break`, `Continue`, `Return` and `Kill` in the naga IR). -/
structure RStmt where
  render : Nat → String
  is_terminator : Bool

/-- `crate::SwitchCase` from the naga IR (body statements carried in
rendered form). -/
structure SwitchCase where
  value : SwitchValue
  body : List RStmt
  fall_through : Bool

/-- `back::continue_forward::ExitControlFlow` (not under src/): what
control flow was forwarded out of a switch rendered as a do-while loop. -/
inductive ExitControlFlow where
  | None
  | Continue (var : String)
  | Break (var : String)

/-- The `one_body` test of the `Statement::Switch` arm (mod.rs lines
2275-2279). -/
def switch_one_body (cases : List SwitchCase) : Bool :=
  ((cases.reverse).drop 1).all (fun case => case.fall_through && case.body.isEmpty)

/-- One case of a normal `switch` (mod.rs lines 2319-2349): label (with a
`u` suffix for `U32` values), optional braces, rendered body, and the
synthetic `break;` for non-fallthrough cases not ending in a terminator. -/
def write_switch_case (l2 : Nat) (case : SwitchCase) : String :=
  let label :=
    match case.value with
    | SwitchValue.I32 v => levelStr l2 ++ "case " ++ toString v ++ ":"
    | SwitchValue.U32 v => levelStr l2 ++ "case " ++ toString v ++ "u:"
    | SwitchValue.Default => levelStr l2 ++ "default:"
  let write_block_braces := !(case.fall_through && case.body.isEmpty)
  label
    ++ (if write_block_braces then " \x7b\n" else "\n")
    ++ String.join (case.body.map (fun sta => sta.render (l2 + 1)))
    ++ (if !case.fall_through
          && (match case.body.getLast? with
              | none => true
              | some sta => !sta.is_terminator) then
          levelStr (l2 + 1) ++ "break;\n"
        else "")
    ++ (if write_block_braces then levelStr l2 ++ "\x7d\n" else "")

/-- `Statement::Switch` arm of `Writer::write_stmt` (mod.rs lines
2262-2352). `selector` is the rendered selector expression; `gate` is the
variable returned by `continue_ctx.enter_switch` (present when a forwarding
gate must be declared) and `exit` the result of `continue_ctx.exit_switch`,
both only consulted on the do-while path exactly as in the source. -/
def write_switch (level : Nat) (selector : String) (cases : List SwitchCase)
    (gate : Option String) (exit : ExitControlFlow) : String :=
  let l2 := level + 1
  if switch_one_body cases then
    (match gate with
     | some var => levelStr level ++ "bool " ++ var ++ " = false;\n"
     | none => "")
      ++ levelStr level ++ "do \x7b\n"
      ++ (match cases.getLast? with
          | some case => String.join (case.body.map (fun sta => sta.render l2))
          | none => "")
      ++ levelStr level ++ "\x7d while(false);\n"
      ++ (match exit with
          | ExitControlFlow.None => ""
          | ExitControlFlow.Continue var =>
              levelStr level ++ "if (" ++ var ++ ") \x7b\n"
                ++ levelStr l2 ++ "continue;\n" ++ levelStr level ++ "\x7d\n"
          | ExitControlFlow.Break var =>
              levelStr level ++ "if (" ++ var ++ ") \x7b\n"
                ++ levelStr l2 ++ "break;\n" ++ levelStr level ++ "\x7d\n")
  else
    levelStr level ++ "switch(" ++ selector ++ ") \x7b\n"
      ++ String.join (cases.map (write_switch_case l2))
      ++ levelStr level ++ "\x7d\n"

/-- `proc::Alignment::round_up` (naga proc code, an input collaborator of
the backend): rounds `n` up to the next multiple of `alignment`.
naga alignments are powers of two and the source uses a mask; for any
positive alignment that equals the ceiling multiple used here. -/
def round_up (alignment n : Nat) : Nat :=
  ((n + alignment - 1) / alignment) * alignment

mutual

/-- The shapes of types that can appear inside a push-constant global, as
`collect_push_constant_items` distinguishes them. Every node carries the
`proc::Layouter` data the source reads for it (`layouter[ty].alignment`,
and for leaves also `layouter[ty].size`); the layouter is an external
collaborator whose results are inputs here. `leaf` covers
`TypeInner::Scalar`, `Vector` and `Matrix`; struct member names are carried
inline (standing for `names[StructMember(ty, index)]`). -/
inductive PCTy where
  | leaf (align size : Nat)
  | array (base : PCTy) (count : Nat) (align : Nat)
  | strct (members : PCMembers) (align : Nat)

/-- The member list of a `PCTy.strct` (a cons-list so that `PCTy` and the
member lists form a plain mutual inductive). -/
inductive PCMembers where
  | nil
  | cons (name : String) (ty : PCTy) (tail : PCMembers)

end

/-- `struct PushConstantItem` (mod.rs lines 404-446): the access path and
byte offset of one push-constant leaf. The `ty` handle field is represented
by the layout data (`align`, `size`) of the leaf type it denotes. -/
structure PushConstantItem where
  access_path : String
  offset : Nat
  align : Nat
  size : Nat
deriving DecidableEq, Repr

mutual

/-- `Writer::collect_push_constant_items` (mod.rs lines 5081-5138),
together with `pc_collect_range` for the `0..count` array loop and
`pc_collect_members` for the struct member loop. Returns the advanced
offset and the items pushed, in order. -/
def collect_push_constant_items (ty : PCTy) (segments : List String) (offset : Nat) :
    Nat × List PushConstantItem :=
  match ty with
  | PCTy.leaf align size =>
      let offset := round_up align offset
      (offset + size,
       [{ access_path := String.join segments, offset := offset, align := align,
          size := size }])
  | PCTy.array base count align =>
      let offset := round_up align offset
      let res := pc_collect_range base segments (List.range count) offset
      (round_up align res.1, res.2)
  | PCTy.strct members align =>
      let offset := round_up align offset
      let res := pc_collect_members members segments offset
      (round_up align res.1, res.2)
termination_by (sizeOf ty, 0)

/-- The `for i in 0..count` loop of the array arm of
`collect_push_constant_items`: recurse on `base` for each index, appending
the `[i]` segment. -/
def pc_collect_range (base : PCTy) (segments : List String) (idxs : List Nat)
    (offset : Nat) : Nat × List PushConstantItem :=
  match idxs with
  | [] => (offset, [])
  | i :: rest =>
      let res1 := collect_push_constant_items base
        (segments ++ ["[" ++ toString i ++ "]"]) offset
      let res2 := pc_collect_range base segments rest res1.1
      (res2.1, res1.2 ++ res2.2)
termination_by (sizeOf base, idxs.length)

/-- The struct member loop of `collect_push_constant_items`: recurse on
each member type, appending the `.member` segment. -/
def pc_collect_members (members : PCMembers) (segments : List String)
    (offset : Nat) : Nat × List PushConstantItem :=
  match members with
  | PCMembers.nil => (offset, [])
  | PCMembers.cons name ty tail =>
      let res1 := collect_push_constant_items ty (segments ++ ["." ++ name]) offset
      let res2 := pc_collect_members tail segments res1.1
      (res2.1, res1.2 ++ res2.2)
termination_by (sizeOf members, 0)

end


mutual

/-- Per the spec (§4.9): the access paths of the push-constant leaves of a
type, reading the structure directly — scalars/vectors/matrices are the
leaves, arrays recurse with `[i]` appended, structs recurse with
`.member` appended. `pre` is the path of the root. -/
def pc_spec_paths (pre : String) (ty : PCTy) : List String :=
  match ty with
  | PCTy.leaf _ _ => [pre]
  | PCTy.array base count _ => pc_spec_paths_range pre base (List.range count)
  | PCTy.strct members _ => pc_spec_paths_members pre members
termination_by (sizeOf ty, 0)

/-- Array-element paths for `pc_spec_paths`. -/
def pc_spec_paths_range (pre : String) (base : PCTy) (idxs : List Nat) : List String :=
  match idxs with
  | [] => []
  | i :: rest =>
      pc_spec_paths (pre ++ "[" ++ toString i ++ "]") base
        ++ pc_spec_paths_range pre base rest
termination_by (sizeOf base, idxs.length)

/-- Struct-member paths for `pc_spec_paths`. -/
def pc_spec_paths_members (pre : String) (members : PCMembers) : List String :=
  match members with
  | PCMembers.nil => []
  | PCMembers.cons name ty tail =>
      pc_spec_paths (pre ++ "." ++ name) ty ++ pc_spec_paths_members pre tail
termination_by (sizeOf members, 0)

end

mutual

/-- Modelled from the spec: the independent layout pass over a
push-constant type (§8 round-trips; §4.9) — each leaf offset is the
running offset rounded up to the leaf alignment, leaves advance the offset
by their size, and arrays and structs round the running offset up to their
alignment on entry and again on exit to preserve stride and trailing
padding. Returns the leaf offsets in order and the final offset. Only the
type and the layouter data are consulted; no reflection state is used. -/
def pc_spec_offsets (ty : PCTy) (offset : Nat) : List Nat × Nat :=
  match ty with
  | PCTy.leaf align size =>
      ([round_up align offset], round_up align offset + size)
  | PCTy.array base count align =>
      let inner := pc_spec_offsets_range base count (round_up align offset)
      (inner.1, round_up align inner.2)
  | PCTy.strct members align =>
      let inner := pc_spec_offsets_members members (round_up align offset)
      (inner.1, round_up align inner.2)
termination_by (sizeOf ty, 0)

/-- Array-element offsets for `pc_spec_offsets` (`count` elements of
`base`, laid out consecutively). -/
def pc_spec_offsets_range (base : PCTy) (count : Nat) (offset : Nat) :
    List Nat × Nat :=
  match count with
  | 0 => ([], offset)
  | Nat.succ n =>
      let first := pc_spec_offsets base offset
      let rest := pc_spec_offsets_range base n first.2
      (first.1 ++ rest.1, rest.2)
termination_by (sizeOf base, count)

/-- Struct-member offsets for `pc_spec_offsets`. -/
def pc_spec_offsets_members (members : PCMembers) (offset : Nat) :
    List Nat × Nat :=
  match members with
  | PCMembers.nil => ([], offset)
  | PCMembers.cons _ ty tail =>
      let first := pc_spec_offsets ty offset
      let rest := pc_spec_offsets_members tail first.2
      (first.1 ++ rest.1, rest.2)
termination_by (sizeOf members, 0)

end

mutual

/-- All layouter data in the type is positive: every alignment is at least
one (naga alignments are powers of two) and every leaf size is at least one
(scalars, vectors and matrices occupy at least one byte). -/
def pc_pos : PCTy → Bool
  | PCTy.leaf align size => decide (1 ≤ align) && decide (1 ≤ size)
  | PCTy.array base _ align => decide (1 ≤ align) && pc_pos base
  | PCTy.strct members align => decide (1 ≤ align) && pc_pos_members members

/-- `pc_pos` for every member of a struct. -/
def pc_pos_members : PCMembers → Bool
  | PCMembers.nil => true
  | PCMembers.cons _ ty tail => pc_pos ty && pc_pos_members tail

end

/-- Whether `glsl_storage_format` maps a format to a string (rather than
rejecting it). -/
def storage_format_mapped (f : StorageFormat) : Bool :=
  match glsl_storage_format f with
  | Except.ok _ => true
  | Except.error _ => false

/-- C3 counterexample: a 64-bit integer scalar does not make translation
fail with `UnsupportedScalar` — `glsl_scalar` accepts `Sint` of width 8
(mapping it to `int`), and a 64-bit integer literal fails with a `Custom`
error instead. -/
theorem C3_counterexample :
    glsl_scalar { kind := ScalarKind.Sint, width := 8 } =
        Except.ok { pre := "i", full := "int" }
      ∧ glsl_scalar { kind := ScalarKind.Sint, width := 8 } ≠
        Except.error (GlslError.UnsupportedScalar { kind := ScalarKind.Sint, width := 8 })
      ∧ write_literal (Literal.I64 1) =
        Except.error (GlslError.Custom "GLSL has no 64-bit integer type") := by
  refine ⟨rfl, by decide, rfl⟩

/-- C3 (amended): `glsl_scalar` fails with `UnsupportedScalar` carrying the
scalar exactly for floats of width other than 4 and 8 (so for 16-bit
floats) and for abstract numeric kinds; 64-bit integers are not rejected by
`glsl_scalar` (signed and unsigned integers map to `int`/`uint` at every
width), and 16-bit float and 64-bit integer literals are rejected with
`Custom` errors rather than `UnsupportedScalar`. -/
theorem C3_unsupported_scalar :
    (∀ s : Scalar, s.kind = ScalarKind.Float → s.width ≠ 4 → s.width ≠ 8 →
      glsl_scalar s = Except.error (GlslError.UnsupportedScalar s))
    ∧ (∀ s : Scalar, s.kind = ScalarKind.AbstractInt ∨ s.kind = ScalarKind.AbstractFloat →
      glsl_scalar s = Except.error (GlslError.UnsupportedScalar s))
    ∧ (∀ w : Nat, glsl_scalar { kind := ScalarKind.Sint, width := w } =
        Except.ok { pre := "i", full := "int" })
    ∧ (∀ w : Nat, glsl_scalar { kind := ScalarKind.Uint, width := w } =
        Except.ok { pre := "u", full := "uint" })
    ∧ write_literal Literal.F16 =
        Except.error (GlslError.Custom "GLSL has no 16-bit float type")
    ∧ (∀ v : Int, write_literal (Literal.I64 v) =
        Except.error (GlslError.Custom "GLSL has no 64-bit integer type"))
    ∧ (∀ v : Nat, write_literal (Literal.U64 v) =
        Except.error (GlslError.Custom "GLSL has no 64-bit integer type")) := by
  refine ⟨?_, ?_, fun _ => rfl, fun _ => rfl, rfl, fun _ => rfl, fun _ => rfl⟩
  · intro s hk h4 h8
    obtain ⟨k, w⟩ := s
    cases hk
    rcases Nat.lt_or_ge w 9 with h | h
    · interval_cases w <;>
        first
          | rfl
          | exact absurd rfl h4
          | exact absurd rfl h8
    · obtain ⟨m, rfl⟩ : ∃ m, w = m + 9 := ⟨w - 9, by omega⟩
      rfl
  · intro s hk
    obtain ⟨k, w⟩ := s
    rcases hk with h | h <;> cases h <;> rfl

/-- C3 witness: the amended theorem applied at the 16-bit float scalar. -/
theorem C3_witness :
    glsl_scalar { kind := ScalarKind.Float, width := 2 } =
      Except.error (GlslError.UnsupportedScalar { kind := ScalarKind.Float, width := 2 }) :=
  C3_unsupported_scalar.1 { kind := ScalarKind.Float, width := 2 } rfl
    (by decide) (by decide)

/-- C9 counterexample: the storage-format table maps 40 formats (of the 41
`StorageFormat` variants), not 42. -/
theorem C9_counterexample :
    (allStorageFormats.filter storage_format_mapped).length = 40
      ∧ allStorageFormats.length = 41
      ∧ (allStorageFormats.filter storage_format_mapped).length ≠ 42 := by
  refine ⟨by decide, by decide, by decide⟩

/-- C9 (amended): the storage-format-to-GLSL-string mapping is a fixed
table over the 41 `StorageFormat` variants with 40 mapped entries that
round-trips — the original format is recoverable from the string — and
`Bgra8Unorm` is rejected with an error instead of being mapped. -/
theorem C9_storage_format_roundtrip :
    (∀ f : StorageFormat, f ∈ allStorageFormats)
      ∧ allStorageFormats.length = 41
      ∧ (allStorageFormats.filter storage_format_mapped).length = 40
      ∧ (∀ (f : StorageFormat) (s : String),
          glsl_storage_format f = Except.ok s → glsl_storage_format_inv s = some f)
      ∧ glsl_storage_format StorageFormat.Bgra8Unorm =
          Except.error (GlslError.Custom "Support format BGRA8 is not implemented") := by
  refine ⟨?_, by decide, by decide, ?_, rfl⟩
  · intro f
    cases f <;> decide
  · intro f s h
    cases f <;> simp_all [glsl_storage_format] <;> (subst h; decide)

/-- C9 witness: the round-trip applied at `R8Unorm`. -/
theorem C9_witness : glsl_storage_format_inv "r8" = some StorageFormat.R8Unorm :=
  C9_storage_format_roundtrip.2.2.2.1 StorageFormat.R8Unorm "r8" rfl

/-- C5: `Clamp` on integer scalar kinds is emitted as `min(max(x, lo), hi)`
— with the GLSL `clamp` builtin absent from the lowering — while float
arguments use the `clamp` builtin. -/
theorem C5_clamp_integer_min_max :
    (∀ x lo hi : String,
        write_clamp ScalarKind.Sint x lo hi =
          "min(max(" ++ x ++ ", " ++ lo ++ "), " ++ hi ++ ")"
      ∧ write_clamp ScalarKind.Uint x lo hi =
          "min(max(" ++ x ++ ", " ++ lo ++ "), " ++ hi ++ ")"
      ∧ write_clamp ScalarKind.Float x lo hi =
          "clamp(" ++ x ++ ", " ++ lo ++ ", " ++ hi ++ ")")
    ∧ ¬ ("clamp".data <:+: (write_clamp ScalarKind.Sint "_e1" "_e2" "_e3").data)
    ∧ ¬ ("clamp".data <:+: (write_clamp ScalarKind.Uint "x" "0" "10").data) := by
  exact ⟨fun x lo hi => ⟨rfl, rfl, rfl⟩, by decide, by decide⟩

/-- C6: a binary `Modulo` whose operands both have float scalar kind is
emitted as the truncated-division remainder `(a - b * trunc(a / b))`. -/
theorem C6_float_modulo_trunc :
    ∀ (l r : Ti) (ls rs : String),
      l.scalar_kind = some ScalarKind.Float →
      r.scalar_kind = some ScalarKind.Float →
      write_binary BinaryOperator.Modulo l r ls rs =
        Except.ok ("(" ++ ls ++ " - " ++ rs ++ " * " ++ "trunc(" ++ ls ++ " / " ++ rs
          ++ ")" ++ ")") := by
  intro l r ls rs hl hr
  cases l <;> cases r <;>
    simp_all [Ti.scalar_kind, write_binary, classify_binary]

/-- C6 witness: the theorem applied at two float scalars. -/
theorem C6_witness :
    write_binary BinaryOperator.Modulo (Ti.ScalarTy { kind := ScalarKind.Float, width := 4 })
        (Ti.ScalarTy { kind := ScalarKind.Float, width := 4 }) "a" "b" =
      Except.ok "(a - b * trunc(a / b))" :=
  C6_float_modulo_trunc (Ti.ScalarTy { kind := ScalarKind.Float, width := 4 })
    (Ti.ScalarTy { kind := ScalarKind.Float, width := 4 }) "a" "b" rfl rfl

/-- C7: no atomic function is emitted with the callee `atomicSub`; an
`Atomic` statement with the `Subtract` function is emitted as a call to
`atomicAdd` whose second argument is the negation of the value operand. -/
theorem C7_atomic_sub_never :
    (∀ f : AtomicFunction, "atomic" ++ f.to_glsl ≠ "atomicSub")
    ∧ (∀ (p v : String) (result : Option (String × String)),
        write_atomic_stmt AtomicFunction.Subtract p v result =
          (match result with
           | some (resTy, resName) => resTy ++ " " ++ resName ++ " = "
           | none => "")
            ++ "atomicAdd(" ++ p ++ ", -" ++ v ++ ");\n")
    ∧ ¬ ("atomicSub".data <:+:
          (write_atomic_stmt AtomicFunction.Subtract "_group_0_binding_0_cs.a" "x" none).data) := by
  refine ⟨?_, ?_, by decide⟩
  · intro f
    cases f with
    | Exchange c =>
        cases c with
        | none => decide
        | some s =>
            simp only [AtomicFunction.to_glsl]
            decide
    | Add => decide
    | Subtract => decide
    | And => decide
    | InclusiveOr => decide
    | ExclusiveOr => decide
    | Min => decide
    | Max => decide
  · intro p v result
    rcases result with _ | ⟨resTy, resName⟩ <;>
      simp [write_atomic_stmt, AtomicFunction.to_glsl, String.ext_iff, String.data_append]

/-- C10: on Desktop (core) versions a storage-image `ImageLoad` is a plain
`imageLoad` with no bounds-check ternary and no coordinate clamp regardless
of the configured policy; on ES versions the configured policy is honored
for storage images, and for sampled images (`texelFetch`) it is honored on
every version. -/
theorem C10_image_load_policy :
    ∀ p : BoundsCheckPolicy,
      (∀ v : Nat,
          write_image_load_shape ImageClass.Storage (Version.Desktop v) p =
            Except.ok
              { fun_name := "imageLoad", has_rzsw_guard := false,
                has_restrict_clamp := false })
      ∧ (∀ (es : Nat) (wb : Bool),
          write_image_load_shape ImageClass.Storage (Version.Embedded es wb) p =
            Except.ok
              { fun_name := "imageLoad",
                has_rzsw_guard := decide (p = BoundsCheckPolicy.ReadZeroSkipWrite),
                has_restrict_clamp := decide (p = BoundsCheckPolicy.Restrict) })
      ∧ (∀ ver : Version,
          write_image_load_shape ImageClass.Sampled ver p =
            Except.ok
              { fun_name := "texelFetch",
                has_rzsw_guard := decide (p = BoundsCheckPolicy.ReadZeroSkipWrite),
                has_restrict_clamp := decide (p = BoundsCheckPolicy.Restrict) }) := by
  intro p
  refine ⟨fun v => ?_, fun es wb => ?_, fun ver => ?_⟩
  · cases p <;> rfl
  · cases p <;> rfl
  · cases p <;> cases ver <;> rfl

/-- C1 (spec-modelled): the features-collection pass fails with
`MultiplePushConstants` exactly when more than one push-constant global is
reachable from the selected entry point. -/
theorem C1_multiple_push_constants :
    ∀ globals : List GlobalVar,
      check_multiple_push_constants globals = Except.error GlslError.MultiplePushConstants
        ↔ 1 < (globals.filter (fun g =>
            g.reachable && decide (g.space = AddressSpace.PushConstant))).length := by
  intro globals
  unfold check_multiple_push_constants
  by_cases h : 2 ≤ (globals.filter (fun g =>
      g.reachable && decide (g.space = AddressSpace.PushConstant))).length
  · simp only [if_pos h]
    exact ⟨fun _ => h, fun _ => trivial⟩
  · simp only [if_neg h]
    exact ⟨fun hc => absurd hc (by decide), fun hlt => absurd hlt h⟩

/-- C2 counterexample: a fragment entry point translated with the
adjust-coordinate-space and force-point-size flags set emits neither the
`gl_Position` adjustment nor the `gl_PointSize` default — the epilogue is
just `return;` — so the claimed biconditional on the flags alone fails. -/
theorem C2_counterexample :
    write_ep_return_epilogue ShaderStage.Fragment true true false = "return;\n"
      ∧ ¬ ("gl_Position".data <:+:
            (write_ep_return_epilogue ShaderStage.Fragment true true false).data)
      ∧ ¬ ("gl_PointSize".data <:+:
            (write_ep_return_epilogue ShaderStage.Fragment true true false).data) := by
  refine ⟨rfl, by decide, by decide⟩

set_option maxRecDepth 100000 in
/-- C2 (amended): the return epilogue adjusts `gl_Position` by
`y = -y; z = 2z - w` iff the entry point is a vertex stage and the
adjust-coordinate-space flag is set, and assigns `gl_PointSize = 1.0` iff
the entry point is a vertex stage, the force-point-size flag is set and no
result struct member carried a `PointSize` builtin binding (for a
non-struct result the flag is never considered set). -/
theorem C2_epilogue_adjustment :
    (∀ (stage : ShaderStage) (adjust force hps : Bool),
        (("gl_Position.yz = vec2(-gl_Position.y, gl_Position.z * 2.0 - gl_Position.w);\n").data
            <:+: (write_ep_return_epilogue stage adjust force hps).data
          ↔ stage = ShaderStage.Vertex ∧ adjust = true)
        ∧ (("gl_PointSize = 1.0;\n").data
            <:+: (write_ep_return_epilogue stage adjust force hps).data
          ↔ stage = ShaderStage.Vertex ∧ force = true ∧ hps = false))
    ∧ (∀ member_bindings : List (Option Binding),
        has_point_size member_bindings = true
          ↔ some (Binding.BuiltIn BuiltInKind.PointSize) ∈ member_bindings) := by
  constructor
  · intro stage adjust force hps
    cases stage <;> cases adjust <;> cases force <;> cases hps <;>
      exact ⟨by decide, by decide⟩
  · intro member_bindings
    simp [has_point_size, List.any_eq_true]

/-- The `one_body` test reads the case list back to front; it is the claim
statement's condition that every case except the last is an empty
fallthrough. -/
lemma switch_one_body_iff (cases_ : List SwitchCase) :
    switch_one_body cases_ = true
      ↔ ∀ c ∈ cases_.dropLast, c.fall_through = true ∧ c.body = [] := by
  unfold switch_one_body
  rw [List.drop_one, List.tail_reverse_eq_reverse_dropLast, List.all_reverse,
    List.all_eq_true]
  constructor
  · intro h c hc
    have hb := h c hc
    simp only [Bool.and_eq_true, List.isEmpty_iff] at hb
    exact hb
  · intro h c hc
    have hb := h c hc
    simp only [Bool.and_eq_true, List.isEmpty_iff]
    exact hb

/-- One case of the normal switch, restated the way the claim reads:
unsigned labels carry a `u` suffix and a synthetic `break;` is appended to
a non-fallthrough case whose body does not end in a terminator. -/
lemma write_switch_case_eq (l2 : Nat) (c : SwitchCase) :
    write_switch_case l2 c =
      levelStr l2
        ++ (match c.value with
            | SwitchValue.I32 v => "case " ++ toString v ++ ":"
            | SwitchValue.U32 v => "case " ++ toString v ++ "u:"
            | SwitchValue.Default => "default:")
        ++ (if c.fall_through && c.body.isEmpty then "\n" else " \x7b\n")
        ++ String.join (c.body.map (fun sta => sta.render (l2 + 1)))
        ++ (if !c.fall_through && c.body.getLast?.elim true (fun sta => !sta.is_terminator)
            then levelStr (l2 + 1) ++ "break;\n"
            else "")
        ++ (if c.fall_through && c.body.isEmpty then ""
            else levelStr l2 ++ "\x7d\n") := by
  obtain ⟨val, body, ft⟩ := c
  cases val <;> cases ft <;> cases hl : body.getLast? <;> cases hb : body.isEmpty <;>
    simp [write_switch_case, hl, hb, Option.elim, String.ext_iff, String.data_append]

/-- C4: the `Switch` writer emits a `do \x7b ... \x7d while(false);` loop
containing only the last case's body exactly when every case except the
last is an empty fallthrough (with the continue-forward gate declaration
and forwarded control flow around it); otherwise it emits a normal
`switch(selector)` whose unsigned case labels carry a `u` suffix and in
which a synthetic `break;` is appended to every non-fallthrough case whose
body does not end in a terminator. -/
theorem C4_switch_do_while :
    ∀ (level : Nat) (selector : String) (cases_ : List SwitchCase)
      (gate : Option String) (exit : ExitControlFlow),
      (switch_one_body cases_ = true
        ↔ ∀ c ∈ cases_.dropLast, c.fall_through = true ∧ c.body = [])
      ∧ (switch_one_body cases_ = true →
          write_switch level selector cases_ gate exit =
            gate.elim "" (fun v => levelStr level ++ "bool " ++ v ++ " = false;\n")
              ++ levelStr level ++ "do \x7b\n"
              ++ String.join ((cases_.getLast?.elim [] SwitchCase.body).map
                  (fun sta => sta.render (level + 1)))
              ++ levelStr level ++ "\x7d while(false);\n"
              ++ (match exit with
                  | ExitControlFlow.None => ""
                  | ExitControlFlow.Continue v =>
                      levelStr level ++ "if (" ++ v ++ ") \x7b\n"
                        ++ levelStr (level + 1) ++ "continue;\n" ++ levelStr level ++ "\x7d\n"
                  | ExitControlFlow.Break v =>
                      levelStr level ++ "if (" ++ v ++ ") \x7b\n"
                        ++ levelStr (level + 1) ++ "break;\n" ++ levelStr level ++ "\x7d\n"))
      ∧ (switch_one_body cases_ = false →
          write_switch level selector cases_ gate exit =
            levelStr level ++ "switch(" ++ selector ++ ") \x7b\n"
              ++ String.join (cases_.map (fun c =>
                  levelStr (level + 1)
                    ++ (match c.value with
                        | SwitchValue.I32 v => "case " ++ toString v ++ ":"
                        | SwitchValue.U32 v => "case " ++ toString v ++ "u:"
                        | SwitchValue.Default => "default:")
                    ++ (if c.fall_through && c.body.isEmpty then "\n" else " \x7b\n")
                    ++ String.join (c.body.map (fun sta => sta.render (level + 2)))
                    ++ (if !c.fall_through
                          && c.body.getLast?.elim true (fun sta => !sta.is_terminator)
                        then levelStr (level + 2) ++ "break;\n"
                        else "")
                    ++ (if c.fall_through && c.body.isEmpty then ""
                        else levelStr (level + 1) ++ "\x7d\n")))
              ++ levelStr level ++ "\x7d\n") := by
  intro level selector cases_ gate exit
  refine ⟨switch_one_body_iff cases_, ?_, ?_⟩
  · intro h
    unfold write_switch
    rw [if_pos h]
    cases gate <;> cases exit <;> cases hgl : cases_.getLast? <;>
      simp [Option.elim, hgl, String.ext_iff, String.data_append]
  · intro h
    unfold write_switch
    rw [if_neg (by simp [h])]
    have hmap : cases_.map (write_switch_case (level + 1)) =
        cases_.map (fun c =>
          levelStr (level + 1)
            ++ (match c.value with
                | SwitchValue.I32 v => "case " ++ toString v ++ ":"
                | SwitchValue.U32 v => "case " ++ toString v ++ "u:"
                | SwitchValue.Default => "default:")
            ++ (if c.fall_through && c.body.isEmpty then "\n" else " \x7b\n")
            ++ String.join (c.body.map (fun sta => sta.render (level + 2)))
            ++ (if !c.fall_through
                  && c.body.getLast?.elim true (fun sta => !sta.is_terminator)
                then levelStr (level + 2) ++ "break;\n"
                else "")
            ++ (if c.fall_through && c.body.isEmpty then ""
                else levelStr (level + 1) ++ "\x7d\n")) := by
      exact List.map_congr_left (fun c _ => write_switch_case_eq (level + 1) c)
    rw [hmap]

/-- C4 witness: a switch whose single case is the default with an empty
body is rendered as a do-while. -/
theorem C4_witness :
    write_switch 0 "_e0"
        [{ value := SwitchValue.Default, body := [], fall_through := false }]
        none ExitControlFlow.None =
      "do \x7b\n\x7d while(false);\n" := by
  rw [(C4_switch_do_while 0 "_e0"
      [{ value := SwitchValue.Default, body := [], fall_through := false }]
      none ExitControlFlow.None).2.1 rfl]
  rfl

/-- Rounding up never decreases the offset (positive alignment). -/
lemma le_round_up (a n : Nat) (h : 1 ≤ a) : n ≤ round_up a n := by
  unfold round_up
  have hdm := Nat.div_add_mod (n + a - 1) a
  have hm : (n + a - 1) % a < a := Nat.mod_lt _ h
  rw [Nat.mul_comm]
  generalize hq : a * ((n + a - 1) / a) = m at hdm
  generalize hr : (n + a - 1) % a = r at hdm hm
  omega

/-- The rounded-up offset is a multiple of the alignment. -/
lemma round_up_dvd (a n : Nat) : a ∣ round_up a n := by
  unfold round_up
  exact Nat.dvd_mul_left a _

/-- Folding string concatenation over a list with a trailing element. -/
lemma string_foldl_append (l : List String) (s init : String) :
    (l ++ [s]).foldl (fun r t => r ++ t) init = l.foldl (fun r t => r ++ t) init ++ s := by
  induction l generalizing init with
  | nil => rfl
  | cons a l ih =>
      simp only [List.cons_append, List.foldl_cons]
      exact ih (init ++ a)

/-- `String.join` of a list with one appended segment. -/
lemma string_join_append_singleton (l : List String) (s : String) :
    String.join (l ++ [s]) = String.join l ++ s :=
  string_foldl_append l s ""

/-- The invariants the push-constant item collector maintains for one
chunk of recursion: the offset only advances, every item lies in the
advanced window with an alignment-divisible offset, and the item offsets
are strictly increasing. -/
def pc_items_ok (off endOff : Nat) (items : List PushConstantItem) : Prop :=
  off ≤ endOff
    ∧ (∀ it ∈ items, off ≤ it.offset ∧ it.offset < endOff ∧ it.align ∣ it.offset)
    ∧ (items.map PushConstantItem.offset).Pairwise (· < ·)

mutual

/-- Joint invariant of `collect_push_constant_items`: the access paths are
the spec paths rooted at the joined segments, the offsets and final offset
agree with the independent layout pass, and the window invariant holds. -/
theorem pc_main (ty : PCTy) : ∀ (segs : List String) (off : Nat),
    pc_pos ty = true →
    (collect_push_constant_items ty segs off).2.map PushConstantItem.access_path
        = pc_spec_paths (String.join segs) ty
      ∧ (collect_push_constant_items ty segs off).2.map PushConstantItem.offset
        = (pc_spec_offsets ty off).1
      ∧ (collect_push_constant_items ty segs off).1 = (pc_spec_offsets ty off).2
      ∧ pc_items_ok off (collect_push_constant_items ty segs off).1
          (collect_push_constant_items ty segs off).2 := by
  cases ty with
  | leaf a s =>
      intro segs off hpos
      simp only [pc_pos, Bool.and_eq_true, decide_eq_true_eq] at hpos
      obtain ⟨ha, hs⟩ := hpos
      have h1 := le_round_up a off ha
      have hc : collect_push_constant_items (PCTy.leaf a s) segs off =
          (round_up a off + s,
           [{ access_path := String.join segs, offset := round_up a off, align := a,
              size := s }]) := by
        simp [collect_push_constant_items]
      rw [hc]
      refine ⟨by simp [pc_spec_paths], by simp [pc_spec_offsets], by simp [pc_spec_offsets],
        by omega, ?_, by simp⟩
      intro it hit
      simp only [List.mem_singleton] at hit
      subst hit
      refine ⟨h1, ?_, round_up_dvd a off⟩
      show round_up a off < round_up a off + s
      omega
  | array base count a =>
      intro segs off hpos
      simp only [pc_pos, Bool.and_eq_true, decide_eq_true_eq] at hpos
      obtain ⟨ha, hbase⟩ := hpos
      obtain ⟨hp, ho, he, hle, hitems, hpw⟩ :=
        pc_main_range base (List.range count) segs (round_up a off) hbase
      rw [List.length_range] at ho he
      have h1 := le_round_up a off ha
      have h2 := le_round_up a
        (pc_collect_range base segs (List.range count) (round_up a off)).1 ha
      simp only [collect_push_constant_items, pc_spec_paths, pc_spec_offsets, pc_items_ok]
      refine ⟨hp, ho, by rw [he], by omega, ?_, hpw⟩
      intro it hit
      obtain ⟨hlo, hhi, hdvd⟩ := hitems it hit
      exact ⟨by omega, by omega, hdvd⟩
  | strct ms a =>
      intro segs off hpos
      simp only [pc_pos, Bool.and_eq_true, decide_eq_true_eq] at hpos
      obtain ⟨ha, hms⟩ := hpos
      obtain ⟨hp, ho, he, hle, hitems, hpw⟩ :=
        pc_main_members ms segs (round_up a off) hms
      have h1 := le_round_up a off ha
      have h2 := le_round_up a (pc_collect_members ms segs (round_up a off)).1 ha
      simp only [collect_push_constant_items, pc_spec_paths, pc_spec_offsets, pc_items_ok]
      refine ⟨hp, ho, by rw [he], by omega, ?_, hpw⟩
      intro it hit
      obtain ⟨hlo, hhi, hdvd⟩ := hitems it hit
      exact ⟨by omega, by omega, hdvd⟩
termination_by (sizeOf ty, 0)

/-- `pc_main` for the array-element loop. -/
theorem pc_main_range (base : PCTy) (idxs : List Nat) : ∀ (segs : List String) (off : Nat),
    pc_pos base = true →
    (pc_collect_range base segs idxs off).2.map PushConstantItem.access_path
        = pc_spec_paths_range (String.join segs) base idxs
      ∧ (pc_collect_range base segs idxs off).2.map PushConstantItem.offset
        = (pc_spec_offsets_range base idxs.length off).1
      ∧ (pc_collect_range base segs idxs off).1
        = (pc_spec_offsets_range base idxs.length off).2
      ∧ pc_items_ok off (pc_collect_range base segs idxs off).1
          (pc_collect_range base segs idxs off).2 := by
  cases idxs with
  | nil =>
      intro segs off hbase
      simp [pc_collect_range, pc_spec_paths_range, pc_spec_offsets_range, pc_items_ok]
  | cons i rest =>
      intro segs off hbase
      obtain ⟨hp1, ho1, he1, hle1, hitems1, hpw1⟩ :=
        pc_main base (segs ++ ["[" ++ toString i ++ "]"]) off hbase
      obtain ⟨hp2, ho2, he2, hle2, hitems2, hpw2⟩ :=
        pc_main_range base rest segs
          (collect_push_constant_items base (segs ++ ["[" ++ toString i ++ "]"]) off).1 hbase
      simp only [pc_collect_range, pc_spec_paths_range, List.length_cons,
        pc_spec_offsets_range, pc_items_ok, List.map_append]
      refine ⟨?_, ?_, ?_, by omega, ?_, ?_⟩
      · rw [hp1, hp2, string_join_append_singleton]
        simp [String.append_assoc]
      · rw [ho1, ho2, he1]
      · rw [he2, he1]
      · intro it hit
        rcases List.mem_append.mp hit with h | h
        · obtain ⟨hlo, hhi, hdvd⟩ := hitems1 it h
          exact ⟨hlo, by omega, hdvd⟩
        · obtain ⟨hlo, hhi, hdvd⟩ := hitems2 it h
          exact ⟨by omega, hhi, hdvd⟩
      · rw [List.pairwise_append]
        refine ⟨hpw1, hpw2, ?_⟩
        intro x hx y hy
        obtain ⟨itx, hitx, rfl⟩ := List.mem_map.mp hx
        obtain ⟨ity, hity, rfl⟩ := List.mem_map.mp hy
        obtain ⟨_, hhix, _⟩ := hitems1 itx hitx
        obtain ⟨hloy, _, _⟩ := hitems2 ity hity
        omega
termination_by (sizeOf base, idxs.length)

/-- `pc_main` for the struct-member loop. -/
theorem pc_main_members (ms : PCMembers) : ∀ (segs : List String) (off : Nat),
    pc_pos_members ms = true →
    (pc_collect_members ms segs off).2.map PushConstantItem.access_path
        = pc_spec_paths_members (String.join segs) ms
      ∧ (pc_collect_members ms segs off).2.map PushConstantItem.offset
        = (pc_spec_offsets_members ms off).1
      ∧ (pc_collect_members ms segs off).1 = (pc_spec_offsets_members ms off).2
      ∧ pc_items_ok off (pc_collect_members ms segs off).1
          (pc_collect_members ms segs off).2 := by
  cases ms with
  | nil =>
      intro segs off hms
      simp [pc_collect_members, pc_spec_paths_members, pc_spec_offsets_members, pc_items_ok]
  | cons name ty tail =>
      intro segs off hms
      simp only [pc_pos_members, Bool.and_eq_true] at hms
      obtain ⟨hty, htail⟩ := hms
      obtain ⟨hp1, ho1, he1, hle1, hitems1, hpw1⟩ :=
        pc_main ty (segs ++ ["." ++ name]) off hty
      obtain ⟨hp2, ho2, he2, hle2, hitems2, hpw2⟩ :=
        pc_main_members tail segs
          (collect_push_constant_items ty (segs ++ ["." ++ name]) off).1 htail
      simp only [pc_collect_members, pc_spec_paths_members, pc_spec_offsets_members,
        pc_items_ok, List.map_append]
      refine ⟨?_, ?_, ?_, by omega, ?_, ?_⟩
      · rw [hp1, hp2, string_join_append_singleton]
        simp [String.append_assoc]
      · rw [ho1, ho2, he1]
      · rw [he2, he1]
      · intro it hit
        rcases List.mem_append.mp hit with h | h
        · obtain ⟨hlo, hhi, hdvd⟩ := hitems1 it h
          exact ⟨hlo, by omega, hdvd⟩
        · obtain ⟨hlo, hhi, hdvd⟩ := hitems2 it h
          exact ⟨by omega, hhi, hdvd⟩
      · rw [List.pairwise_append]
        refine ⟨hpw1, hpw2, ?_⟩
        intro x hx y hy
        obtain ⟨itx, hitx, rfl⟩ := List.mem_map.mp hx
        obtain ⟨ity, hity, rfl⟩ := List.mem_map.mp hy
        obtain ⟨_, hhix, _⟩ := hitems1 itx hitx
        obtain ⟨hloy, _, _⟩ := hitems2 ity hity
        omega
termination_by (sizeOf ms, 0)

end

/-- C8: for a push-constant global of type `ty` named `name`, the collected
reflection items are exactly the scalar/vector/matrix leaves with access
paths built by appending `[i]` for array elements and `.member` for struct
members, every item offset is a multiple of its type's alignment, the
offsets are strictly increasing in list order, and they equal the offsets
of the independent layout pass over the same type (given the layouter's
positive alignments and sizes). -/
theorem C8_push_constant_items :
    ∀ (name : String) (ty : PCTy),
      pc_pos ty = true →
      (collect_push_constant_items ty [name] 0).2.map PushConstantItem.access_path
          = pc_spec_paths name ty
        ∧ ((collect_push_constant_items ty [name] 0).2.map
            PushConstantItem.offset).Pairwise (· < ·)
        ∧ (∀ it ∈ (collect_push_constant_items ty [name] 0).2, it.align ∣ it.offset)
        ∧ (collect_push_constant_items ty [name] 0).2.map PushConstantItem.offset
          = (pc_spec_offsets ty 0).1 := by
  intro name ty hpos
  obtain ⟨hp, ho, he, hle, hitems, hpw⟩ := pc_main ty [name] 0 hpos
  have hj : String.join [name] = name := by
    show "" ++ name = name
    apply String.ext
    simp [String.data_append]
  rw [hj] at hp
  exact ⟨hp, hpw, fun it hit => ((hitems it hit)).2.2, ho⟩

/-- The push-constant type of spec scenario 6:
`struct { inner : struct { v : f32 }, arr : array<vec4, 2> }` with the
layouter's alignments and sizes. -/
def pcExample : PCTy :=
  PCTy.strct
    (PCMembers.cons "inner"
      (PCTy.strct (PCMembers.cons "v" (PCTy.leaf 4 4) PCMembers.nil) 4)
      (PCMembers.cons "arr" (PCTy.array (PCTy.leaf 16 16) 2 16) PCMembers.nil))
    16

/-- C8 witness: the theorem applied to the scenario-6 push constant. -/
theorem C8_witness :
    (collect_push_constant_items pcExample ["_push_constant_binding_vs"] 0).2.map
        PushConstantItem.access_path = pc_spec_paths "_push_constant_binding_vs" pcExample
      ∧ ((collect_push_constant_items pcExample ["_push_constant_binding_vs"] 0).2.map
          PushConstantItem.offset).Pairwise (· < ·)
      ∧ (∀ it ∈ (collect_push_constant_items pcExample ["_push_constant_binding_vs"] 0).2,
          it.align ∣ it.offset)
      ∧ (collect_push_constant_items pcExample ["_push_constant_binding_vs"] 0).2.map
          PushConstantItem.offset = (pc_spec_offsets pcExample 0).1 :=
  C8_push_constant_items "_push_constant_binding_vs" pcExample (by rfl)
